import Mathlib

/-!
# Shallow embedding of the Profile API service (src/main.py)

The service is a CRUD HTTP API over two relational tables, `users` and
`education`.  We embed the database state as explicit lists of rows (in
storage order, as SQLAlchemy's unordered queries return insertion order for
these operations), and each CRUD function of `main.py` as a pure function
threading that state.  A raised `HTTPException` is modelled as the `Except`
error case; since every exception in the source is raised before the
session commits, the state component returned alongside an error is the
unchanged input state.

Server-assigned timestamp columns (`created_at`, `updated_at`) are managed
by the database clock (`func.now()`); they are nondeterministic real-time
values and no claim depends on them, so they are omitted from the row
types.  The SQL `Float` score column is modelled as `ℚ`: the only
operations on it are comparison with the literals 0 and 100 and
assignment, on which `Float` and `ℚ` agree for every representable value.
Autoincrement primary keys are modelled by `next_user_id` /
`next_education_id` counters in the state.
-/

/-- The `UserType` enum of main.py: allowed values of `user_type`. -/
inductive UserType where
  | student
  | professor
  | teacher
deriving DecidableEq, Repr

/-- The `.value` of a `UserType` enum member (its string payload). -/
def UserType.value : UserType → String
  | .student => "student"
  | .professor => "professor"
  | .teacher => "teacher"

/-- A row of the `users` table (timestamp columns omitted, see module doc). -/
structure UserRow where
  user_id : Nat
  name : String
  email : String
  bio : Option String
  location : Option String
  score : ℚ
  test_count : Nat
  phone_no : Option String
  user_type : String
deriving DecidableEq, Repr

/-- A row of the `education` table (timestamp column omitted). -/
structure EducationRow where
  education_id : Nat
  user_id : Nat
  degree : String
  institution : String
  year : Nat
deriving DecidableEq, Repr

/-- The database state: both tables in storage order, plus the autoincrement
counters for the two integer primary keys. -/
structure DB where
  users : List UserRow
  education : List EducationRow
  next_user_id : Nat
  next_education_id : Nat
deriving DecidableEq, Repr

/-- A raised FastAPI `HTTPException`: status code and detail message. -/
structure HTTPException where
  status_code : Nat
  detail : String
deriving DecidableEq, Repr

/-- The `EducationCreate` pydantic schema (validation already applied:
`year` is in [1900,2100], strings within length bounds). -/
structure EducationCreate where
  degree : String
  institution : String
  year : Nat
deriving DecidableEq, Repr

/-- The `UserProfileCreate` pydantic schema, after validation (email
syntactically valid, score in [0,100], test_count ≥ 0, etc.).  Defaults
mirror the pydantic field defaults. -/
structure UserProfileCreate where
  name : String
  email : String
  bio : Option String := none
  location : Option String := none
  score : ℚ := 0
  test_count : Nat := 0
  phone_no : Option String := none
  user_type : UserType
  education : Option EducationCreate := none
deriving DecidableEq, Repr

/-- The `UserProfileUpdate` pydantic schema.  `main.py` dumps it with
`exclude_unset=True`, so for each field we must distinguish *unset* from
*set to null* from *set to a value*: `none` = the field was absent from the
request body, `some none` = present with value `null`, `some (some v)` =
present with value `v`.  The `education` field is read directly off the
model (not via the dump) and tested with `if user_data.education:`, so for
it unset and null are indistinguishable and a single `Option` suffices. -/
structure UserProfileUpdate where
  name : Option (Option String) := none
  email : Option (Option String) := none
  bio : Option (Option String) := none
  location : Option (Option String) := none
  score : Option (Option ℚ) := none
  test_count : Option (Option Nat) := none
  phone_no : Option (Option String) := none
  user_type : Option (Option UserType) := none
  education : Option EducationCreate := none
deriving DecidableEq, Repr

/-- Replace the first element satisfying `p` by `v` (the effect of
`setattr` on the single ORM object returned by `.filter(...).first()`,
once the session commits). -/
def replaceFirst (p : α → Bool) (v : α) : List α → List α
  | [] => []
  | x :: xs => if p x then v :: xs else x :: replaceFirst p v xs

/-- Remove the first element satisfying `p` (the effect of
`db.delete(obj)` on the row backing `obj`). -/
def eraseFirst (p : α → Bool) : List α → List α
  | [] => []
  | x :: xs => if p x then xs else x :: eraseFirst p xs

/-- The detail string of the 404 raised by `get_user_db`. -/
def notFoundMsg (user_id : Nat) : String :=
  "User with ID " ++ toString user_id ++ " not found"

/-- `get_user_db`: first user with the given id, or a 404 `HTTPException`. -/
def get_user_db (db : DB) (user_id : Nat) : Except HTTPException UserRow :=
  match db.users.find? (fun u => u.user_id == user_id) with
  | some u => .ok u
  | none => .error ⟨404, notFoundMsg user_id⟩

/-- `create_user_db`: reject a duplicate email with a 400, otherwise insert
the user row (first commit) and, if an education payload was supplied,
insert one education row (second commit).  Returns the created row and the
final state; on the 400 path the state is untouched. -/
def create_user_db (db : DB) (user_data : UserProfileCreate) :
    Except HTTPException UserRow × DB :=
  match db.users.find? (fun u => u.email == user_data.email) with
  | some _ => (.error ⟨400, "Email already registered"⟩, db)
  | none =>
    let db_user : UserRow :=
      { user_id := db.next_user_id
        name := user_data.name
        email := user_data.email
        bio := user_data.bio
        location := user_data.location
        score := user_data.score
        test_count := user_data.test_count
        phone_no := user_data.phone_no
        user_type := user_data.user_type.value }
    let db1 : DB := { db with
      users := db.users ++ [db_user]
      next_user_id := db.next_user_id + 1 }
    match user_data.education with
    | none => (.ok db_user, db1)
    | some ed =>
      let db_education : EducationRow :=
        { education_id := db1.next_education_id
          user_id := db_user.user_id
          degree := ed.degree
          institution := ed.institution
          year := ed.year }
      let db2 : DB := { db1 with
        education := db1.education ++ [db_education]
        next_education_id := db1.next_education_id + 1 }
      (.ok db_user, db2)

/-- The sequence of database states committed by `create_user_db`, in
order: the source calls `db.commit()` after adding the user row and, when
an education payload is present, calls `db.commit()` a second time after
adding the education row.  On the duplicate-email path nothing is
committed. -/
def create_user_db_commits (db : DB) (user_data : UserProfileCreate) : List DB :=
  match db.users.find? (fun u => u.email == user_data.email) with
  | some _ => []
  | none =>
    let db_user : UserRow :=
      { user_id := db.next_user_id
        name := user_data.name
        email := user_data.email
        bio := user_data.bio
        location := user_data.location
        score := user_data.score
        test_count := user_data.test_count
        phone_no := user_data.phone_no
        user_type := user_data.user_type.value }
    let db1 : DB := { db with
      users := db.users ++ [db_user]
      next_user_id := db.next_user_id + 1 }
    match user_data.education with
    | none => [db1]
    | some ed =>
      let db_education : EducationRow :=
        { education_id := db1.next_education_id
          user_id := db_user.user_id
          degree := ed.degree
          institution := ed.institution
          year := ed.year }
      let db2 : DB := { db1 with
        education := db1.education ++ [db_education]
        next_education_id := db1.next_education_id + 1 }
      [db1, db2]

/-- `get_users_db`: optional user_type filter, then offset/limit.  The
source guards the filter with Python truthiness (`if user_type:`), so the
filter is applied only when the string is present and nonempty. -/
def get_users_db (db : DB) (user_type : Option String) (skip limit : Nat) :
    List UserRow :=
  let query :=
    match user_type with
    | some t =>
      if t ≠ "" then db.users.filter (fun u : UserRow => u.user_type == t) else db.users
    | none => db.users
  (query.drop skip).take limit

/-- The `/profiles/` list endpoint `get_all_profiles`: passes
`user_type.value if user_type else None` down to `get_users_db`. -/
def get_all_profiles (db : DB) (user_type : Option UserType) (skip limit : Nat) :
    List UserRow :=
  get_users_db db (user_type.map UserType.value) skip limit

/-- Apply one dumped update field to a required column: the source loop
does `setattr` only when the field was set (`exclude_unset`) and its value
is not `None` (`elif value is not None`). -/
def applyReq (cur : α) : Option (Option α) → α
  | some (some v) => v
  | _ => cur

/-- Apply one dumped update field to a nullable column; same skip rule as
`applyReq`, so a field set to `null` leaves the column unchanged. -/
def applyOpt (cur : Option α) : Option (Option α) → Option α
  | some (some v) => some v
  | _ => cur

/-- The field-update loop of `update_user_db` applied to the found user
row.  `user_type` goes through the `if key == 'user_type' and value:`
branch, which stores `value.value`; a `UserType` enum member is a nonempty
string and hence always truthy, so the branch fires exactly when the field
was set to a non-null value. -/
def applyUpdate (u : UserRow) (upd : UserProfileUpdate) : UserRow :=
  { u with
    name := applyReq u.name upd.name
    email := applyReq u.email upd.email
    bio := applyOpt u.bio upd.bio
    location := applyOpt u.location upd.location
    score := applyReq u.score upd.score
    test_count := applyReq u.test_count upd.test_count
    phone_no := applyOpt u.phone_no upd.phone_no
    user_type :=
      match upd.user_type with
      | some (some t) => t.value
      | _ => u.user_type }

/-- `update_user_db`: 404 if the user does not exist; otherwise apply the
set-and-non-null fields, and if an education payload is present delete all
education rows of the user and append one new row; a single `db.commit()`
then commits every one of these writes together. -/
def update_user_db (db : DB) (user_id : Nat) (user_data : UserProfileUpdate) :
    Except HTTPException UserRow × DB :=
  match get_user_db db user_id with
  | .error e => (.error e, db)
  | .ok db_user =>
    let u := applyUpdate db_user user_data
    let users := replaceFirst (fun x => x.user_id == user_id) u db.users
    match user_data.education with
    | none => (.ok u, { db with users := users })
    | some ed =>
      let db_education : EducationRow :=
        { education_id := db.next_education_id
          user_id := user_id
          degree := ed.degree
          institution := ed.institution
          year := ed.year }
      (.ok u, { db with
        users := users
        education :=
          db.education.filter (fun e => e.user_id != user_id) ++ [db_education]
        next_education_id := db.next_education_id + 1 })

/-- The sequence of database states committed by `update_user_db`: the
source issues exactly one `db.commit()`, after all of its writes, so the
trace is the single final state (and empty on the 404 path, where the
exception is raised before any write). -/
def update_user_db_commits (db : DB) (user_id : Nat) (user_data : UserProfileUpdate) :
    List DB :=
  match get_user_db db user_id with
  | .error _ => []
  | .ok _ => [(update_user_db db user_id user_data).2]

/-- `delete_user_db`: 404 if the user does not exist; otherwise delete the
user row; the `cascade="all, delete-orphan"` relationship (and the
`ondelete="CASCADE"` foreign key) delete every education row owned by the
user in the same commit. -/
def delete_user_db (db : DB) (user_id : Nat) :
    Except HTTPException Bool × DB :=
  match get_user_db db user_id with
  | .error e => (.error e, db)
  | .ok _ =>
    (.ok true, { db with
      users := eraseFirst (fun x => x.user_id == user_id) db.users
      education := db.education.filter (fun e => e.user_id != user_id) })

/-- `increment_test_db`: 404 if the user does not exist; otherwise add 1 to
`test_count` and commit. -/
def increment_test_db (db : DB) (user_id : Nat) :
    Except HTTPException UserRow × DB :=
  match get_user_db db user_id with
  | .error e => (.error e, db)
  | .ok db_user =>
    let u := { db_user with test_count := db_user.test_count + 1 }
    (.ok u, { db with users := replaceFirst (fun x => x.user_id == user_id) u db.users })

/-- `update_score_db`: reject a score outside [0,100] with a 400 *before*
looking the user up; then 404 if the user does not exist; otherwise set
`score` and commit. -/
def update_score_db (db : DB) (user_id : Nat) (new_score : ℚ) :
    Except HTTPException UserRow × DB :=
  if new_score < 0 ∨ new_score > 100 then
    (.error ⟨400, "Score must be between 0 and 100"⟩, db)
  else
    match get_user_db db user_id with
    | .error e => (.error e, db)
    | .ok db_user =>
      let u := { db_user with score := new_score }
      (.ok u, { db with users := replaceFirst (fun x => x.user_id == user_id) u db.users })

/-- The JSON body returned by a successful `/health` probe. -/
structure HealthResponse where
  status : String
  database : String
deriving DecidableEq, Repr

/-- `health_check`: runs the probe query `db.query(User).first()`,
discarding its result; if the probe raises (storage unreachable, modelled
by `dbError = some e` carrying the exception text), a 503 is returned,
otherwise the fixed body `{"status": "healthy", "database": "connected"}`.
The response does not depend on the contents of `db`. -/
def health_check (db : DB) (dbError : Option String) :
    Except HTTPException HealthResponse :=
  match dbError with
  | some e =>
    .error ⟨503, "Database connection failed: " ++ e⟩
  | none =>
    let _probe := db.users.head?
    .ok { status := "healthy", database := "connected" }

/-! ### Concrete sample data, used to exercise the operations -/

/-- The empty database, as created by `Base.metadata.create_all`. -/
def emptyDB : DB :=
  { users := [], education := [], next_user_id := 1, next_education_id := 1 }

/-- A sample stored user row. -/
def alice : UserRow :=
  { user_id := 1, name := "Alice", email := "alice@example.com", bio := none
    location := none, score := 10, test_count := 0, phone_no := none
    user_type := "student" }

/-- A second sample stored user row. -/
def bob : UserRow :=
  { user_id := 2, name := "Bob", email := "bob@example.com", bio := none
    location := none, score := 20, test_count := 1, phone_no := none
    user_type := "professor" }

/-- A database holding `alice` and `bob`. -/
def dbAB : DB :=
  { users := [alice, bob], education := [], next_user_id := 3, next_education_id := 1 }

/-- An education row owned by `alice`, predating an update. -/
def eduOld : EducationRow :=
  { education_id := 1, user_id := 1, degree := "Old Degree"
    institution := "Old Institution", year := 2000 }

/-- A database holding `alice` and `bob`, with one education row for `alice`. -/
def dbEdu : DB :=
  { users := [alice, bob], education := [eduOld], next_user_id := 3, next_education_id := 2 }

/-- A create payload with a fresh email and no education. -/
def janeCreate : UserProfileCreate :=
  { name := "Jane Doe", email := "jane@x.com", user_type := .student
    score := 50, test_count := 0 }

/-- A sample education payload. -/
def janeEdu : EducationCreate :=
  { degree := "Bachelor of Science", institution := "MIT", year := 2023 }

/-- A create payload with a fresh email and an education payload. -/
def janeWithEdu : UserProfileCreate :=
  { janeCreate with education := some janeEdu }

/-- A create payload reusing `alice`'s email. -/
def aliceDupCreate : UserProfileCreate :=
  { name := "Alice Again", email := "alice@example.com", user_type := .teacher }

/-- The empty update: every field absent from the request body. -/
def emptyUpdate : UserProfileUpdate := {}

/-- An update setting `bio` to a string and `score` to null, leaving the
rest absent. -/
def bioUpdate : UserProfileUpdate :=
  { bio := some (some "hello"), score := some none }

/-- An update carrying only a replacement education payload. -/
def eduUpdate : UserProfileUpdate :=
  { education := some { degree := "MSc", institution := "MIT", year := 2024 } }

/-- An update setting `email` to an address already owned by `alice`. -/
def takenEmailUpdate : UserProfileUpdate :=
  { email := some (some "alice@example.com") }

/-! ### General lemmas about the list primitives -/

/-- Finding after `replaceFirst`: if `p` had a hit and the replacement also
satisfies `p`, the replacement is the new first hit. -/
theorem find?_replaceFirst (p : α → Bool) (v : α) (l : List α) (u : α)
    (h : l.find? p = some u) (hv : p v = true) :
    (replaceFirst p v l).find? p = some v := by
  induction l with
  | nil => simp at h
  | cons x xs ih =>
    by_cases hx : p x = true
    · simp only [replaceFirst, if_pos hx]
      exact List.find?_cons_of_pos _ hv
    · simp only [replaceFirst, if_neg hx]
      rw [List.find?_cons_of_neg _ hx] at h
      rw [List.find?_cons_of_neg _ hx]
      exact ih h

/-- When the key column is duplicate-free (a primary key), erasing the
first hit erases the only hit. -/
theorem find?_eraseFirst (f : α → Nat) (k : Nat) (l : List α)
    (hnd : (l.map f).Nodup) :
    (eraseFirst (fun x => f x == k) l).find? (fun x => f x == k) = none := by
  induction l with
  | nil => simp [eraseFirst]
  | cons x xs ih =>
    simp only [List.map_cons, List.nodup_cons] at hnd
    obtain ⟨hx, hxs⟩ := hnd
    by_cases h : (f x == k) = true
    · simp only [eraseFirst, if_pos h]
      rw [List.find?_eq_none]
      intro y hy hyk
      apply hx
      have h1 : f y = k := by simpa using hyk
      have h2 : f x = k := by simpa using h
      rw [h2, ← h1]
      exact List.mem_map_of_mem f hy
    · simp only [eraseFirst, if_neg h]
      rw [List.find?_eq_none]
      intro y hy
      rcases List.mem_cons.mp hy with rfl | hy2
      · exact h
      · have h3 := ih hxs
        rw [List.find?_eq_none] at h3
        exact h3 y hy2

/-- Rows kept by a key-disagreement filter never pass the key-agreement
filter. -/
theorem filter_bne_beq_nil (f : α → Nat) (k : Nat) (l : List α) :
    (l.filter (fun x => f x != k)).filter (fun x => f x == k) = [] := by
  induction l with
  | nil => rfl
  | cons x xs ih =>
    by_cases h : f x = k <;> simp [List.filter_cons, h, ih]

/-- The key-disagreement filter is idempotent. -/
theorem filter_bne_idem (f : α → Nat) (k : Nat) (l : List α) :
    (l.filter (fun x => f x != k)).filter (fun x => f x != k) =
      l.filter (fun x => f x != k) := by
  rw [List.filter_filter]
  simp

/-- Every row returned by the list operation is a stored row. -/
theorem mem_get_users_db (db : DB) (ut : Option String) (skip limit : Nat)
    (v : UserRow) (hv : v ∈ get_users_db db ut skip limit) : v ∈ db.users := by
  cases ut with
  | none =>
    simp only [get_users_db] at hv
    exact (List.drop_sublist _ _).subset ((List.take_sublist _ _).subset hv)
  | some t =>
    simp only [get_users_db] at hv
    by_cases ht : t = ""
    · rw [if_neg (by simp [ht])] at hv
      exact (List.drop_sublist _ _).subset ((List.take_sublist _ _).subset hv)
    · rw [if_pos ht] at hv
      have h2 := (List.drop_sublist _ _).subset ((List.take_sublist _ _).subset hv)
      exact (List.filter_sublist _).subset h2

/-- The only error `get_user_db` ever raises is the 404. -/
theorem get_user_db_error_404 (db : DB) (user_id : Nat) (e : HTTPException)
    (h : get_user_db db user_id = .error e) : e = ⟨404, notFoundMsg user_id⟩ := by
  unfold get_user_db at h
  cases hf : db.users.find? (fun u => u.user_id == user_id) with
  | some u => rw [hf] at h; exact Except.noConfusion h
  | none => rw [hf] at h; exact (Except.error.inj h).symm

/-- No `UserType` enum member has an empty string payload. -/
theorem UserType.value_ne_empty (t : UserType) : t.value ≠ "" := by
  cases t <;> simp [UserType.value]

/-! ### Claims -/

/-- C1: for every stored user and every score s in the inclusive range
[0,100], `update_score_db` succeeds and the stored score afterwards equals
s; for every s outside [0,100] it fails with the 400 validation error
before touching storage, leaving the state (hence the stored score)
unchanged. -/
theorem update_score_range_spec (db : DB) (user_id : Nat) (u : UserRow) (s : ℚ)
    (hu : db.users.find? (fun x => x.user_id == user_id) = some u) :
    (0 ≤ s ∧ s ≤ 100 →
      update_score_db db user_id s =
        (.ok { u with score := s },
          { db with users :=
              replaceFirst (fun x => x.user_id == user_id) { u with score := s } db.users }) ∧
      (update_score_db db user_id s).2.users.find? (fun x => x.user_id == user_id) =
        some { u with score := s }) ∧
    (s < 0 ∨ 100 < s →
      update_score_db db user_id s = (.error ⟨400, "Score must be between 0 and 100"⟩, db)) := by
  have hg : get_user_db db user_id = .ok u := by
    unfold get_user_db; rw [hu]
  constructor
  · rintro ⟨h0, h1⟩
    have hcond : ¬(s < 0 ∨ s > 100) := by push_neg; exact ⟨h0, h1⟩
    have heq : update_score_db db user_id s =
        (.ok { u with score := s },
          { db with users :=
              replaceFirst (fun x => x.user_id == user_id) { u with score := s } db.users }) := by
      unfold update_score_db
      rw [if_neg hcond, hg]
    refine ⟨heq, ?_⟩
    rw [heq]
    have hp := @List.find?_some UserRow (fun x => x.user_id == user_id) u db.users hu
    apply find?_replaceFirst _ _ _ u hu
    exact hp
  · intro h
    unfold update_score_db
    rw [if_pos h]

/-- C1 witness: in `dbAB`, user 1 exists; instantiating the theorem at
score 50 yields both branches at a concrete input. -/
theorem update_score_range_spec_witness :
    (dbAB.users.find? (fun x => x.user_id == 1) = some alice) ∧
    ((0 ≤ (50 : ℚ) ∧ (50 : ℚ) ≤ 100 →
      update_score_db dbAB 1 50 =
        (.ok { alice with score := 50 },
          { dbAB with users :=
              replaceFirst (fun x => x.user_id == 1) { alice with score := 50 } dbAB.users }) ∧
      (update_score_db dbAB 1 50).2.users.find? (fun x => x.user_id == 1) =
        some { alice with score := 50 }) ∧
    ((50 : ℚ) < 0 ∨ 100 < (50 : ℚ) →
      update_score_db dbAB 1 50 = (.error ⟨400, "Score must be between 0 and 100"⟩, dbAB))) :=
  ⟨by decide, update_score_range_spec dbAB 1 alice 50 (by decide)⟩

/-- C2: creating a profile with a previously unused email succeeds and
returns a row carrying the fresh identifier, appending exactly that row to
the user table; creating with an email that already belongs to some stored
user fails with the 400 conflict error and leaves the state unchanged. -/
theorem create_user_email_spec (db : DB) (user_data : UserProfileCreate) :
    (db.users.find? (fun x => x.email == user_data.email) = none →
      ∃ row db2, create_user_db db user_data = (.ok row, db2) ∧
        row.user_id = db.next_user_id ∧ row.email = user_data.email ∧
        db2.users = db.users ++ [row]) ∧
    (∀ w, db.users.find? (fun x => x.email == user_data.email) = some w →
      create_user_db db user_data = (.error ⟨400, "Email already registered"⟩, db)) := by
  constructor
  · intro h
    unfold create_user_db
    rw [h]
    cases hed : user_data.education with
    | none => exact ⟨_, _, rfl, rfl, rfl, rfl⟩
    | some ed => exact ⟨_, _, rfl, rfl, rfl, rfl⟩
  · intro w hw
    unfold create_user_db
    rw [hw]

/-- C2 witness: creating `janeCreate` in the empty database succeeds;
creating `aliceDupCreate` (whose email is `alice`'s) in `dbAB` fails with
the conflict error and leaves `dbAB` unchanged. -/
theorem create_user_email_spec_witness :
    (∃ row db2, create_user_db emptyDB janeCreate = (.ok row, db2) ∧
      row.user_id = emptyDB.next_user_id ∧ row.email = janeCreate.email ∧
      db2.users = emptyDB.users ++ [row]) ∧
    create_user_db dbAB aliceDupCreate = (.error ⟨400, "Email already registered"⟩, dbAB) :=
  ⟨(create_user_email_spec emptyDB janeCreate).1 (by decide),
   (create_user_email_spec dbAB aliceDupCreate).2 alice (by decide)⟩

/-- C5: for a user identifier with no stored row, get, update, delete,
increment-test-count and update-score (the latter on any in-range score,
the only scores FastAPI's `Query(..., ge=0, le=100)` lets through to it)
all fail with the 404 error and return the state unchanged. -/
theorem not_found_spec (db : DB) (user_id : Nat) (upd : UserProfileUpdate) (s : ℚ)
    (h : db.users.find? (fun x => x.user_id == user_id) = none)
    (h0 : 0 ≤ s) (h1 : s ≤ 100) :
    get_user_db db user_id = .error ⟨404, notFoundMsg user_id⟩ ∧
    update_user_db db user_id upd = (.error ⟨404, notFoundMsg user_id⟩, db) ∧
    delete_user_db db user_id = (.error ⟨404, notFoundMsg user_id⟩, db) ∧
    increment_test_db db user_id = (.error ⟨404, notFoundMsg user_id⟩, db) ∧
    update_score_db db user_id s = (.error ⟨404, notFoundMsg user_id⟩, db) := by
  have hg : get_user_db db user_id = .error ⟨404, notFoundMsg user_id⟩ := by
    unfold get_user_db; rw [h]
  have hcond : ¬(s < 0 ∨ s > 100) := by push_neg; exact ⟨h0, h1⟩
  refine ⟨hg, ?_, ?_, ?_, ?_⟩
  · unfold update_user_db; rw [hg]
  · unfold delete_user_db; rw [hg]
  · unfold increment_test_db; rw [hg]
  · unfold update_score_db; rw [if_neg hcond, hg]

/-- C5 witness: identifier 7 does not exist in `dbAB`; all five operations
404 on it (score 50 for update-score) and leave the state unchanged. -/
theorem not_found_spec_witness :
    (dbAB.users.find? (fun x => x.user_id == 7) = none) ∧
    (get_user_db dbAB 7 = .error ⟨404, notFoundMsg 7⟩ ∧
    update_user_db dbAB 7 emptyUpdate = (.error ⟨404, notFoundMsg 7⟩, dbAB) ∧
    delete_user_db dbAB 7 = (.error ⟨404, notFoundMsg 7⟩, dbAB) ∧
    increment_test_db dbAB 7 = (.error ⟨404, notFoundMsg 7⟩, dbAB) ∧
    update_score_db dbAB 7 50 = (.error ⟨404, notFoundMsg 7⟩, dbAB)) :=
  ⟨by decide, not_found_spec dbAB 7 emptyUpdate 50 (by decide) (by decide) (by decide)⟩

/-- A database whose user lookup misses yields the 404 of `get_user_db`. -/
theorem get_user_db_eq_error (db : DB) (user_id : Nat)
    (h : db.users.find? (fun x => x.user_id == user_id) = none) :
    get_user_db db user_id = .error ⟨404, notFoundMsg user_id⟩ := by
  unfold get_user_db; rw [h]

/-- C3: on an existing user, update-profile succeeds, stores exactly
`applyUpdate u upd`, and that row keeps the previous value of every field
absent from the request body while taking the supplied value of every
field present with a non-null value; with no education payload the
education table is untouched. -/
theorem update_user_frame_spec (db : DB) (user_id : Nat)
    (upd : UserProfileUpdate) (u : UserRow)
    (hu : db.users.find? (fun x => x.user_id == user_id) = some u) :
    ∃ db2, update_user_db db user_id upd = (.ok (applyUpdate u upd), db2) ∧
      db2.users.find? (fun x => x.user_id == user_id) = some (applyUpdate u upd) ∧
      (applyUpdate u upd).user_id = u.user_id ∧
      (upd.name = none → (applyUpdate u upd).name = u.name) ∧
      (∀ v, upd.name = some (some v) → (applyUpdate u upd).name = v) ∧
      (upd.email = none → (applyUpdate u upd).email = u.email) ∧
      (∀ v, upd.email = some (some v) → (applyUpdate u upd).email = v) ∧
      (upd.bio = none → (applyUpdate u upd).bio = u.bio) ∧
      (∀ v, upd.bio = some (some v) → (applyUpdate u upd).bio = some v) ∧
      (upd.location = none → (applyUpdate u upd).location = u.location) ∧
      (∀ v, upd.location = some (some v) → (applyUpdate u upd).location = some v) ∧
      (upd.score = none → (applyUpdate u upd).score = u.score) ∧
      (∀ v, upd.score = some (some v) → (applyUpdate u upd).score = v) ∧
      (upd.test_count = none → (applyUpdate u upd).test_count = u.test_count) ∧
      (∀ v, upd.test_count = some (some v) → (applyUpdate u upd).test_count = v) ∧
      (upd.phone_no = none → (applyUpdate u upd).phone_no = u.phone_no) ∧
      (∀ v, upd.phone_no = some (some v) → (applyUpdate u upd).phone_no = some v) ∧
      (upd.user_type = none → (applyUpdate u upd).user_type = u.user_type) ∧
      (∀ t, upd.user_type = some (some t) → (applyUpdate u upd).user_type = t.value) ∧
      (upd.education = none → db2.education = db.education) := by
  have hg : get_user_db db user_id = .ok u := by unfold get_user_db; rw [hu]
  have hp := @List.find?_some UserRow (fun x => x.user_id == user_id) u db.users hu
  cases hed : upd.education with
  | none =>
    have heq : update_user_db db user_id upd =
        (.ok (applyUpdate u upd),
          { db with users :=
              replaceFirst (fun x => x.user_id == user_id) (applyUpdate u upd) db.users }) := by
      unfold update_user_db
      rw [hg, hed]
    refine ⟨_, heq, ?_, rfl, ?_, ?_, ?_, ?_, ?_, ?_, ?_, ?_, ?_, ?_, ?_, ?_, ?_, ?_, ?_, ?_,
      fun _ => rfl⟩
    · apply find?_replaceFirst _ _ _ u hu
      exact hp
    all_goals first
      | (intro h2; simp [applyUpdate, applyReq, applyOpt, h2])
      | (intro v h2; simp [applyUpdate, applyReq, applyOpt, h2])
  | some ed =>
    have heq : update_user_db db user_id upd =
        (.ok (applyUpdate u upd),
          { db with
            users :=
              replaceFirst (fun x => x.user_id == user_id) (applyUpdate u upd) db.users
            education := db.education.filter (fun e => e.user_id != user_id) ++
              [{ education_id := db.next_education_id, user_id := user_id,
                 degree := ed.degree, institution := ed.institution, year := ed.year }]
            next_education_id := db.next_education_id + 1 }) := by
      unfold update_user_db
      rw [hg, hed]
    refine ⟨_, heq, ?_, rfl, ?_, ?_, ?_, ?_, ?_, ?_, ?_, ?_, ?_, ?_, ?_, ?_, ?_, ?_, ?_, ?_, ?_⟩
    · apply find?_replaceFirst _ _ _ u hu
      exact hp
    rotate_left 16
    · intro h2
      cases h2
    all_goals first
      | (intro h2; simp [applyUpdate, applyReq, applyOpt, h2])
      | (intro v h2; simp [applyUpdate, applyReq, applyOpt, h2])

/-- C3 witness: updating user 1 of `dbAB` with `bioUpdate` (bio set to a
string, score set to null, all else absent) exercises the frame theorem at
a concrete input. -/
theorem update_user_frame_spec_witness :
    (dbAB.users.find? (fun x => x.user_id == 1) = some alice) ∧
    (∃ db2, update_user_db dbAB 1 bioUpdate = (.ok (applyUpdate alice bioUpdate), db2) ∧
      db2.users.find? (fun x => x.user_id == 1) = some (applyUpdate alice bioUpdate) ∧
      (applyUpdate alice bioUpdate).user_id = alice.user_id ∧
      (bioUpdate.name = none → (applyUpdate alice bioUpdate).name = alice.name) ∧
      (∀ v, bioUpdate.name = some (some v) → (applyUpdate alice bioUpdate).name = v) ∧
      (bioUpdate.email = none → (applyUpdate alice bioUpdate).email = alice.email) ∧
      (∀ v, bioUpdate.email = some (some v) → (applyUpdate alice bioUpdate).email = v) ∧
      (bioUpdate.bio = none → (applyUpdate alice bioUpdate).bio = alice.bio) ∧
      (∀ v, bioUpdate.bio = some (some v) → (applyUpdate alice bioUpdate).bio = some v) ∧
      (bioUpdate.location = none → (applyUpdate alice bioUpdate).location = alice.location) ∧
      (∀ v, bioUpdate.location = some (some v) →
        (applyUpdate alice bioUpdate).location = some v) ∧
      (bioUpdate.score = none → (applyUpdate alice bioUpdate).score = alice.score) ∧
      (∀ v, bioUpdate.score = some (some v) → (applyUpdate alice bioUpdate).score = v) ∧
      (bioUpdate.test_count = none →
        (applyUpdate alice bioUpdate).test_count = alice.test_count) ∧
      (∀ v, bioUpdate.test_count = some (some v) →
        (applyUpdate alice bioUpdate).test_count = v) ∧
      (bioUpdate.phone_no = none → (applyUpdate alice bioUpdate).phone_no = alice.phone_no) ∧
      (∀ v, bioUpdate.phone_no = some (some v) →
        (applyUpdate alice bioUpdate).phone_no = some v) ∧
      (bioUpdate.user_type = none →
        (applyUpdate alice bioUpdate).user_type = alice.user_type) ∧
      (∀ t, bioUpdate.user_type = some (some t) →
        (applyUpdate alice bioUpdate).user_type = t.value) ∧
      (bioUpdate.education = none → db2.education = dbAB.education)) :=
  ⟨by decide, update_user_frame_spec dbAB 1 bioUpdate alice (by decide)⟩

/-- C4: on an existing user, an update carrying an education payload
succeeds, and in the resulting state the education rows of that user are
exactly the single freshly inserted row built from the payload, while the
education rows of every other user are untouched: a subsequent fetch sees
only the new entry, never the old ones. -/
theorem update_education_replace_spec (db : DB) (user_id : Nat)
    (upd : UserProfileUpdate) (u : UserRow) (ed : EducationCreate)
    (hu : db.users.find? (fun x => x.user_id == user_id) = some u)
    (hed : upd.education = some ed) :
    (update_user_db db user_id upd).1 = .ok (applyUpdate u upd) ∧
    (update_user_db db user_id upd).2.education.filter (fun e => e.user_id == user_id) =
      [{ education_id := db.next_education_id, user_id := user_id,
         degree := ed.degree, institution := ed.institution, year := ed.year }] ∧
    (update_user_db db user_id upd).2.education.filter (fun e => e.user_id != user_id) =
      db.education.filter (fun e => e.user_id != user_id) := by
  have hg : get_user_db db user_id = .ok u := by unfold get_user_db; rw [hu]
  have heq : update_user_db db user_id upd =
      (.ok (applyUpdate u upd),
        { db with
          users :=
            replaceFirst (fun x => x.user_id == user_id) (applyUpdate u upd) db.users
          education := db.education.filter (fun e => e.user_id != user_id) ++
            [{ education_id := db.next_education_id, user_id := user_id,
               degree := ed.degree, institution := ed.institution, year := ed.year }]
          next_education_id := db.next_education_id + 1 }) := by
    unfold update_user_db
    rw [hg, hed]
  rw [heq]
  refine ⟨rfl, ?_, ?_⟩
  · show (db.education.filter (fun e : EducationRow => e.user_id != user_id) ++
        [({ education_id := db.next_education_id, user_id := user_id,
            degree := ed.degree, institution := ed.institution,
            year := ed.year } : EducationRow)]).filter
        (fun e : EducationRow => e.user_id == user_id) = _
    rw [List.filter_append, filter_bne_beq_nil (fun e : EducationRow => e.user_id) user_id]
    simp
  · show (db.education.filter (fun e : EducationRow => e.user_id != user_id) ++
        [({ education_id := db.next_education_id, user_id := user_id,
            degree := ed.degree, institution := ed.institution,
            year := ed.year } : EducationRow)]).filter
        (fun e : EducationRow => e.user_id != user_id) = _
    rw [List.filter_append, filter_bne_idem (fun e : EducationRow => e.user_id) user_id]
    simp

/-- C4 witness: replacing the education of user 1 in `dbEdu` (which holds
one old row for them) yields exactly the new row for user 1 and leaves the
rows of other users as they were. -/
theorem update_education_replace_spec_witness :
    (dbEdu.users.find? (fun x => x.user_id == 1) = some alice) ∧
    (eduUpdate.education = some { degree := "MSc", institution := "MIT", year := 2024 }) ∧
    ((update_user_db dbEdu 1 eduUpdate).1 = .ok (applyUpdate alice eduUpdate) ∧
     (update_user_db dbEdu 1 eduUpdate).2.education.filter (fun e => e.user_id == 1) =
       [{ education_id := 2, user_id := 1, degree := "MSc",
          institution := "MIT", year := 2024 }] ∧
     (update_user_db dbEdu 1 eduUpdate).2.education.filter (fun e => e.user_id != 1) =
       dbEdu.education.filter (fun e => e.user_id != 1)) :=
  ⟨by decide, rfl,
   update_education_replace_spec dbEdu 1 eduUpdate alice
     { degree := "MSc", institution := "MIT", year := 2024 } (by decide) rfl⟩

/-- C6: when the user exists, delete removes their row and every education
row they own (cascade): afterwards a get of that identifier 404s, no
education row of theirs survives, and no list result ever contains their
identifier; deleting a nonexistent identifier fails with the 404 and
leaves the state unchanged.  The `Nodup` hypothesis is the `users` primary
key invariant. -/
theorem delete_user_spec (db : DB) (user_id : Nat)
    (hnd : (db.users.map UserRow.user_id).Nodup) :
    (∀ u, db.users.find? (fun x => x.user_id == user_id) = some u →
      delete_user_db db user_id =
        (.ok true,
          { db with
            users := eraseFirst (fun x => x.user_id == user_id) db.users
            education := db.education.filter (fun e => e.user_id != user_id) }) ∧
      get_user_db (delete_user_db db user_id).2 user_id = .error ⟨404, notFoundMsg user_id⟩ ∧
      (delete_user_db db user_id).2.education.filter (fun e => e.user_id == user_id) = [] ∧
      (∀ ut skip limit v, v ∈ get_users_db (delete_user_db db user_id).2 ut skip limit →
        v.user_id ≠ user_id)) ∧
    (db.users.find? (fun x => x.user_id == user_id) = none →
      delete_user_db db user_id = (.error ⟨404, notFoundMsg user_id⟩, db)) := by
  constructor
  · intro u hu
    have hg : get_user_db db user_id = .ok u := by unfold get_user_db; rw [hu]
    have heq : delete_user_db db user_id =
        (.ok true,
          { db with
            users := eraseFirst (fun x => x.user_id == user_id) db.users
            education := db.education.filter (fun e => e.user_id != user_id) }) := by
      unfold delete_user_db
      rw [hg]
    have hfind : (eraseFirst (fun x => x.user_id == user_id) db.users).find?
        (fun x => x.user_id == user_id) = none :=
      find?_eraseFirst UserRow.user_id user_id db.users hnd
    refine ⟨heq, ?_, ?_, ?_⟩
    · apply get_user_db_eq_error
      rw [heq]
      exact hfind
    · rw [heq]
      exact filter_bne_beq_nil (fun e : EducationRow => e.user_id) user_id db.education
    · intro ut skip limit v hv hvid
      rw [heq] at hv
      have hv2 : v ∈ eraseFirst (fun x => x.user_id == user_id) db.users :=
        mem_get_users_db _ ut skip limit v hv
      have h3 := List.find?_eq_none.mp hfind v hv2
      exact h3 (by simp [hvid])
  · intro h
    unfold delete_user_db
    rw [get_user_db_eq_error db user_id h]

/-- C6 witness: deleting user 1 of `dbEdu` removes their row and their
education row; deleting the absent identifier 7 fails with the 404. -/
theorem delete_user_spec_witness :
    ((dbEdu.users.map UserRow.user_id).Nodup) ∧
    ((∀ u, dbEdu.users.find? (fun x => x.user_id == 1) = some u →
      delete_user_db dbEdu 1 =
        (.ok true,
          { dbEdu with
            users := eraseFirst (fun x => x.user_id == 1) dbEdu.users
            education := dbEdu.education.filter (fun e => e.user_id != 1) }) ∧
      get_user_db (delete_user_db dbEdu 1).2 1 = .error ⟨404, notFoundMsg 1⟩ ∧
      (delete_user_db dbEdu 1).2.education.filter (fun e => e.user_id == 1) = [] ∧
      (∀ ut skip limit v, v ∈ get_users_db (delete_user_db dbEdu 1).2 ut skip limit →
        v.user_id ≠ 1)) ∧
    (dbEdu.users.find? (fun x => x.user_id == 1) = none →
      delete_user_db dbEdu 1 = (.error ⟨404, notFoundMsg 1⟩, dbEdu))) :=
  ⟨by decide, delete_user_spec dbEdu 1 (by decide)⟩

/-- C7 counterexample: creating `janeWithEdu` in the empty database commits
twice, and the first committed state contains the new user row (one user)
but none of the operation's education writes (`education = []`), while the
final committed state does contain the education row — so an intermediate
state with only part of the operation's writes is reachable, contrary to
the claim that a single logical operation commits as a whole or not at
all. -/
theorem create_two_commit_cex :
    (create_user_db_commits emptyDB janeWithEdu).length = 2 ∧
    ((create_user_db_commits emptyDB janeWithEdu).getD 0 emptyDB).users.length = 1 ∧
    ((create_user_db_commits emptyDB janeWithEdu).getD 0 emptyDB).education = [] ∧
    ((create_user_db_commits emptyDB janeWithEdu).getD 1 emptyDB).education ≠ [] ∧
    (create_user_db emptyDB janeWithEdu).2 =
      (create_user_db_commits emptyDB janeWithEdu).getD 1 emptyDB := by
  decide

/-- C7 amended: update-profile issues at most one commit (all of its
writes, field updates and education replacement together, become visible
atomically), but create-profile with an education payload commits twice:
first a state holding the new user row and the untouched education table,
then the state that adds the education row — the user-without-education
intermediate state is committed. -/
theorem commit_granularity_spec (db : DB) (user_id : Nat) (upd : UserProfileUpdate)
    (u : UserProfileCreate) (ed : EducationCreate)
    (hfresh : db.users.find? (fun x => x.email == u.email) = none)
    (hed : u.education = some ed) :
    (update_user_db_commits db user_id upd).length ≤ 1 ∧
    ∃ row erow,
      create_user_db_commits db u =
        [{ db with
           users := db.users ++ [row]
           next_user_id := db.next_user_id + 1 },
         { db with
           users := db.users ++ [row]
           next_user_id := db.next_user_id + 1
           education := db.education ++ [erow]
           next_education_id := db.next_education_id + 1 }] ∧
      row.user_id = db.next_user_id ∧ erow.user_id = db.next_user_id := by
  constructor
  · cases hg : get_user_db db user_id with
    | error e => simp [update_user_db_commits, hg]
    | ok w => simp [update_user_db_commits, hg]
  · unfold create_user_db_commits
    rw [hfresh, hed]
    exact ⟨_, _, rfl, rfl, rfl⟩

/-- C7 witness: the amended commit-granularity statement instantiated in
the empty database with `janeWithEdu` (create) and the empty update on
identifier 1 (update). -/
theorem commit_granularity_spec_witness :
    (emptyDB.users.find? (fun x => x.email == janeWithEdu.email) = none) ∧
    (janeWithEdu.education = some janeEdu) ∧
    ((update_user_db_commits emptyDB 1 emptyUpdate).length ≤ 1 ∧
     ∃ row erow,
       create_user_db_commits emptyDB janeWithEdu =
         [{ emptyDB with
            users := emptyDB.users ++ [row]
            next_user_id := emptyDB.next_user_id + 1 },
          { emptyDB with
            users := emptyDB.users ++ [row]
            next_user_id := emptyDB.next_user_id + 1
            education := emptyDB.education ++ [erow]
            next_education_id := emptyDB.next_education_id + 1 }] ∧
       row.user_id = emptyDB.next_user_id ∧ erow.user_id = emptyDB.next_user_id) :=
  ⟨rfl, rfl, commit_granularity_spec emptyDB 1 emptyUpdate janeWithEdu janeEdu rfl rfl⟩

/-- C8 counterexample: two databases with different numbers of User rows
produce identical successful health-check responses, so the response
cannot carry a live count of User rows as the claim states — the source
returns only the fixed body with `status` and `database` fields. -/
theorem health_check_no_count_cex :
    dbAB.users.length ≠ emptyDB.users.length ∧
    health_check dbAB none = health_check emptyDB none :=
  ⟨by decide, rfl⟩

/-- C8 amended: the health check runs its no-op probe query and, when
storage is reachable, returns the fixed healthy/connected body (with no
row count); when the probe raises, it fails with the 503 error carrying
the exception text. -/
theorem health_check_spec (db : DB) (e : String) :
    health_check db none = .ok { status := "healthy", database := "connected" } ∧
    health_check db (some e) = .error ⟨503, "Database connection failed: " ++ e⟩ :=
  ⟨rfl, rfl⟩

/-- C9: the list operation returns exactly the stored users matching the
optional user_type filter (all users when it is omitted), in storage
order, with the first `skip` matching records dropped and the result
truncated to at most `limit` records. -/
theorem list_profiles_spec (db : DB) (ut : Option UserType) (skip limit : Nat)
    (h1 : 1 ≤ limit) (h2 : limit ≤ 1000) :
    get_all_profiles db ut skip limit =
      ((match ut with
        | some t => db.users.filter (fun v : UserRow => v.user_type == t.value)
        | none => db.users).drop skip).take limit ∧
    (∀ v ∈ get_all_profiles db ut skip limit, v ∈ db.users) ∧
    (∀ t, ut = some t → ∀ v ∈ get_all_profiles db ut skip limit, v.user_type = t.value) ∧
    (get_all_profiles db ut skip limit).length ≤ limit ∧
    (get_all_profiles db ut skip limit).Sublist db.users := by
  cases ut with
  | none =>
    refine ⟨rfl, ?_, ?_, ?_, ?_⟩
    · intro v hv
      exact mem_get_users_db db none skip limit v hv
    · intro t ht
      cases ht
    · exact List.length_take_le _ _
    · exact (List.take_sublist _ _).trans (List.drop_sublist _ _)
  | some t =>
    have htv : t.value ≠ "" := UserType.value_ne_empty t
    have hq : get_all_profiles db (some t) skip limit =
        ((db.users.filter (fun v : UserRow => v.user_type == t.value)).drop skip).take
          limit := by
      simp [get_all_profiles, get_users_db, htv]
    refine ⟨hq, ?_, ?_, ?_, ?_⟩
    · intro v hv
      exact mem_get_users_db db _ skip limit v hv
    · intro t2 ht v hv
      cases ht
      rw [hq] at hv
      have hv2 := (List.take_sublist _ _).subset hv
      have hv3 := (List.drop_sublist _ _).subset hv2
      have hv4 := List.of_mem_filter hv3
      simpa using hv4
    · rw [hq]
      exact List.length_take_le _ _
    · rw [hq]
      exact (List.take_sublist _ _).trans
        ((List.drop_sublist _ _).trans (List.filter_sublist _))

/-- C9 witness: listing `dbAB` with the `professor` filter, skip 0 and
limit 100 exercises the theorem at a concrete input. -/
theorem list_profiles_spec_witness :
    (1 ≤ 100) ∧ ((100 : Nat) ≤ 1000) ∧
    (get_all_profiles dbAB (some .professor) 0 100 =
      ((match (some UserType.professor : Option UserType) with
        | some t => dbAB.users.filter (fun v : UserRow => v.user_type == t.value)
        | none => dbAB.users).drop 0).take 100 ∧
    (∀ v ∈ get_all_profiles dbAB (some .professor) 0 100, v ∈ dbAB.users) ∧
    (∀ t, (some UserType.professor : Option UserType) = some t →
      ∀ v ∈ get_all_profiles dbAB (some .professor) 0 100, v.user_type = t.value) ∧
    (get_all_profiles dbAB (some .professor) 0 100).length ≤ 100 ∧
    (get_all_profiles dbAB (some .professor) 0 100).Sublist dbAB.users) :=
  ⟨by decide, by decide,
   list_profiles_spec dbAB (some .professor) 0 100 (by decide) (by decide)⟩

/-- C10: the update operation never performs an application-level email
uniqueness check: the only error it can return is the 404 (never the 400
conflict that create uses), and on an existing user an update supplying
any email — including one already owned by a different user — succeeds
and stores that email. -/
theorem update_email_no_conflict_spec (db : DB) (user_id : Nat)
    (upd : UserProfileUpdate) (u : UserRow) :
    (∀ e, (update_user_db db user_id upd).1 = .error e → e.status_code = 404) ∧
    (db.users.find? (fun x => x.user_id == user_id) = some u →
      ∀ em, upd.email = some (some em) →
        (update_user_db db user_id upd).1 = .ok (applyUpdate u upd) ∧
        (applyUpdate u upd).email = em ∧
        (update_user_db db user_id upd).2.users.find? (fun x => x.user_id == user_id) =
          some (applyUpdate u upd)) := by
  constructor
  · intro e he
    cases hg : get_user_db db user_id with
    | error e2 =>
      have h404 := get_user_db_error_404 db user_id e2 hg
      have heq : update_user_db db user_id upd = (.error e2, db) := by
        unfold update_user_db
        rw [hg]
      rw [heq] at he
      have he2 : e2 = e := Except.error.inj he
      rw [← he2, h404]
    | ok w =>
      cases hed : upd.education with
      | none =>
        have heq : update_user_db db user_id upd =
            (.ok (applyUpdate w upd),
              { db with users :=
                  replaceFirst (fun x => x.user_id == user_id) (applyUpdate w upd) db.users }) := by
          unfold update_user_db
          rw [hg, hed]
        rw [heq] at he
        exact Except.noConfusion he
      | some ed =>
        have heq : update_user_db db user_id upd =
            (.ok (applyUpdate w upd),
              { db with
                users :=
                  replaceFirst (fun x => x.user_id == user_id) (applyUpdate w upd) db.users
                education := db.education.filter (fun e2 => e2.user_id != user_id) ++
                  [{ education_id := db.next_education_id, user_id := user_id,
                     degree := ed.degree, institution := ed.institution, year := ed.year }]
                next_education_id := db.next_education_id + 1 }) := by
          unfold update_user_db
          rw [hg, hed]
        rw [heq] at he
        exact Except.noConfusion he
  · intro hu em hem
    have hg : get_user_db db user_id = .ok u := by unfold get_user_db; rw [hu]
    have hp := @List.find?_some UserRow (fun x => x.user_id == user_id) u db.users hu
    cases hed : upd.education with
    | none =>
      have heq : update_user_db db user_id upd =
          (.ok (applyUpdate u upd),
            { db with users :=
                replaceFirst (fun x => x.user_id == user_id) (applyUpdate u upd) db.users }) := by
        unfold update_user_db
        rw [hg, hed]
      refine ⟨by rw [heq], ?_, ?_⟩
      · simp [applyUpdate, applyReq, hem]
      · rw [heq]
        apply find?_replaceFirst _ _ _ u hu
        exact hp
    | some ed =>
      have heq : update_user_db db user_id upd =
          (.ok (applyUpdate u upd),
            { db with
              users :=
                replaceFirst (fun x => x.user_id == user_id) (applyUpdate u upd) db.users
              education := db.education.filter (fun e2 => e2.user_id != user_id) ++
                [{ education_id := db.next_education_id, user_id := user_id,
                   degree := ed.degree, institution := ed.institution, year := ed.year }]
              next_education_id := db.next_education_id + 1 }) := by
        unfold update_user_db
        rw [hg, hed]
      refine ⟨by rw [heq], ?_, ?_⟩
      · simp [applyUpdate, applyReq, hem]
      · rw [heq]
        apply find?_replaceFirst _ _ _ u hu
        exact hp

/-- C10 witness: updating user 2 (`bob`) of `dbAB` with an email that
already belongs to user 1 (`alice`) succeeds — no conflict error — and
stores the taken email. -/
theorem update_email_no_conflict_spec_witness :
    (update_user_db dbAB 2 takenEmailUpdate).1 = .ok (applyUpdate bob takenEmailUpdate) ∧
    (applyUpdate bob takenEmailUpdate).email = "alice@example.com" ∧
    (update_user_db dbAB 2 takenEmailUpdate).2.users.find? (fun x => x.user_id == 2) =
      some (applyUpdate bob takenEmailUpdate) :=
  (update_email_no_conflict_spec dbAB 2 takenEmailUpdate bob).2 (by decide)
    "alice@example.com" rfl
